import Mathlib

/-!
Shallow embedding of `src/SpotGPS.py` (class `MapMeClass`): a loader for
Google Location Services JSON exports, a time/coordinate transformer over a
dataframe, a boolean-mask filter with clear, and a map presenter.

Dataframes are modelled column-wise: a list of (column name, cells), all
columns of equal length in every state the pipeline produces.  Cell values
are rationals (exact stand-ins for Python numerics), strings, or null
(covering both JSON null and pandas NaN/NaT).  Fallible pandas operations
are modelled with `Except` over the exception classes the library raises.
-/

namespace SpotGPS

/-- A JSON / dataframe cell value.  `null` stands for JSON null and for
pandas NaN/NaT alike; numbers are exact rationals. -/
inductive JVal where
  | num (q : ℚ)
  | str (s : String)
  | null
  deriving DecidableEq, Repr

/-- A JSON object: an association list of field names to values. -/
abbrev JObject := List (String × JVal)

/-- The parsed top level of the input file: an object mapping keys to
arrays of location objects (`pd.read_json` result, by key). -/
structure ParsedJson where
  keys : List (String × List JObject)
  deriving DecidableEq, Repr

/-- The Python exception classes raised by the pandas calls in the source:
`ValueError` from `pd.read_json` on unparseable input is `parseError`;
column access on a missing column is `keyError`; `pd.to_datetime` on a
non-convertible value is `valueError`; arithmetic on a non-numeric column
is `typeError`; boolean-mask length mismatch and out-of-range positional
indexing are `indexError`. -/
inductive PdError where
  | parseError
  | keyError (k : String)
  | valueError
  | typeError
  | indexError
  deriving DecidableEq, Repr

/-- A dataframe: named columns of cells (all the same length in every
frame the pipeline builds). -/
structure DataFrame where
  cols : List (String × List JVal)
  deriving DecidableEq, Repr

/-- First value bound to a key in an association list. -/
def lookupKey {α : Type} : List (String × α) → String → Option α
  | [], _ => none
  | p :: l, k => if p.1 = k then some p.2 else lookupKey l k

/-- Column access `df[k]`. -/
def DataFrame.getCol (df : DataFrame) (k : String) : Option (List JVal) :=
  lookupKey df.cols k

/-- Number of rows (`len(df)`): the length of the first column. -/
def DataFrame.nrows (df : DataFrame) : ℕ :=
  match df.cols with
  | [] => 0
  | c :: _ => c.2.length

/-- Column assignment `df[k] = cells`: replace the column if it exists,
otherwise append it. -/
def setCol (cols : List (String × List JVal)) (k : String) (cells : List JVal) :
    List (String × List JVal) :=
  match lookupKey cols k with
  | some _ => cols.map (fun c => if c.1 = k then (k, cells) else c)
  | none => cols ++ [(k, cells)]

/-- A record's value for a field; a field absent from this record (but
present in others) materialises as NaN (`null`) in the dataframe. -/
def recField (r : JObject) (k : String) : JVal :=
  (lookupKey r k).getD JVal.null

/-- Accumulate field names not seen yet, preserving first-seen order. -/
def addKeys : List String → List String → List String
  | acc, [] => acc
  | acc, k :: ks => addKeys (if acc.contains k then acc else acc ++ [k]) ks

/-- The union of the field names of a list of records, in first-seen
order: the columns `pd.DataFrame.from_dict` creates. -/
def unionKeys (recs : List JObject) : List String :=
  recs.foldl (fun acc r => addKeys acc (r.map Prod.fst)) []

/-- `pd.DataFrame.from_dict(dict_list)`: one column per field name
occurring in any record; records lacking a field contribute NaN. -/
def fromDict (recs : List JObject) : DataFrame :=
  ⟨(unionKeys recs).map (fun k => (k, recs.map (fun r => recField r k)))⟩

/-- `df.filter(items=...)`: keep only the listed columns, in list order,
silently skipping names that are not present. -/
def DataFrame.filterItems (df : DataFrame) (items : List String) : DataFrame :=
  ⟨items.filterMap (fun k => (lookupKey df.cols k).map (fun cells => (k, cells)))⟩

/-- An element-wise fallible pandas operation over a column: the first
failing cell raises, nothing is produced. -/
def mapCellsE {β : Type} (f : JVal → Except PdError β) : List JVal → Except PdError (List β)
  | [] => .ok []
  | c :: cs =>
    match f c with
    | .error e => .error e
    | .ok v =>
      match mapCellsE f cs with
      | .error e => .error e
      | .ok vs => .ok (v :: vs)

/-- `MapMeClass._ReadJson`: parse the file, take the `locations` column as
a list of dicts, rebuild a dataframe from it, and keep only the three raw
fields.  An unparseable file raises from `pd.read_json` (modelled as the
`none` input); a missing `locations` key raises `KeyError`. -/
def _ReadJson (input : Option ParsedJson) : Except PdError DataFrame :=
  match input with
  | none => .error .parseError
  | some doc =>
    match lookupKey doc.keys "locations" with
    | none => .error (.keyError "locations")
    | some dict_list =>
      .ok ((fromDict dict_list).filterItems ["latitudeE7", "longitudeE7", "timestampMs"])

/-- Calendar time derived from an epoch timestamp (UTC, no timezone
conversion), as pandas exposes it via `.dt.year` and friends. -/
structure TimeParts where
  year : ℤ
  month : ℤ
  day : ℤ
  hour : ℤ
  minute : ℤ
  second : ℤ
  deriving DecidableEq, Repr

/-- Proleptic-Gregorian civil date from a count of days since 1970-01-01
(the days-to-civil-date algorithm used by datetime libraries). -/
def civilFromDays (z0 : ℤ) : ℤ × ℤ × ℤ :=
  let z := z0 + 719468
  let era := Int.ediv z 146097
  let doe := z - era * 146097
  let yoe := Int.ediv (doe - Int.ediv doe 1460 + Int.ediv doe 36524 - Int.ediv doe 146096) 365
  let y := yoe + era * 400
  let doy := doe - (365 * yoe + Int.ediv yoe 4 - Int.ediv yoe 100)
  let mp := Int.ediv (5 * doy + 2) 153
  let d := doy - Int.ediv (153 * mp + 2) 5 + 1
  let m := if mp < 10 then mp + 3 else mp - 9
  (if m ≤ 2 then y + 1 else y, m, d)

/-- The UTC calendar fields of an epoch-millisecond timestamp. -/
def partsFromMs (ms : ℤ) : TimeParts :=
  let days := Int.ediv ms 86400000
  let rem := Int.emod ms 86400000
  let ymd := civilFromDays days
  { year := ymd.1
    month := ymd.2.1
    day := ymd.2.2
    hour := Int.ediv rem 3600000
    minute := Int.emod (Int.ediv rem 60000) 60
    second := Int.emod (Int.ediv rem 1000) 60 }

/-- Decimal-digit parse of a character list (accumulator form). -/
def parseDigitsAux : List Char → ℕ → Option ℕ
  | [], acc => some acc
  | c :: cs, acc =>
    if c.isDigit then parseDigitsAux cs (acc * 10 + (c.toNat - 48)) else none

/-- The numeric-string conversion pandas applies under `unit='ms'`: an
optionally negated run of decimal digits (fractional numeric strings are
not modelled; the export format uses integer strings). -/
def parseIntStr (s : String) : Option ℤ :=
  match s.data with
  | [] => none
  | '-' :: cs =>
    match cs with
    | [] => none
    | _ => (parseDigitsAux cs 0).map (fun n => -(n : ℤ))
  | cs => (parseDigitsAux cs 0).map (fun n => (n : ℤ))

/-- One cell of `pd.to_datetime(col, unit='ms')`: a numeric cell is an
epoch-millisecond offset, a missing value becomes NaT (`none`), a string
is converted as a number when possible and raises `ValueError`
otherwise. -/
def toDatetimeCell : JVal → Except PdError (Option ℤ)
  | .num q => .ok (some ⌊q⌋)
  | .null => .ok none
  | .str s =>
    match parseIntStr s with
    | some n => .ok (some n)
    | none => .error .valueError

/-- A derived calendar-field cell (`date_time.dt.year` etc.): NaT rows
yield NaN. -/
def optPart (f : TimeParts → ℤ) : Option ℤ → JVal
  | none => JVal.null
  | some ms => JVal.num (f (partsFromMs ms))

/-- The `timestamp_fixed` cell (`dt.to_pydatetime()`), represented by its
epoch milliseconds. -/
def timestampFixedCell : Option ℤ → JVal
  | none => JVal.null
  | some ms => JVal.num ms

/-- `astype(str)` of one derived calendar cell.  The dtype of the
`.dt.year`/... columns depends on the whole datetime column: with no NaT
they are int64 and integers print bare; with any NaT pandas upcasts them
to float64 (int64 cannot hold NaN), so valid cells print with a trailing
.0 and missing cells print as nan. -/
def calendarCellStr (hasNaT : Bool) (f : TimeParts → ℤ) : Option ℤ → String
  | none => "nan"
  | some ms =>
    if hasNaT then toString (f (partsFromMs ms)) ++ ".0"
    else toString (f (partsFromMs ms))

/-- The `timestamp_string` cell: string concatenation of the month, day,
year, hour and minute columns with slash, space and colon separators —
no zero padding, seconds omitted; `hasNaT` records whether the datetime
column contains a NaT (which floats the rendering of every row). -/
def timestampStringCell (hasNaT : Bool) (dt : Option ℤ) : JVal :=
  JVal.str (calendarCellStr hasNaT TimeParts.month dt ++ "/" ++
            calendarCellStr hasNaT TimeParts.day dt ++ "/" ++
            calendarCellStr hasNaT TimeParts.year dt ++ " " ++
            calendarCellStr hasNaT TimeParts.hour dt ++ ":" ++
            calendarCellStr hasNaT TimeParts.minute dt)

/-- The eight column assignments of `_DeriveTimeIntervals`, in source
order, applied to the frame's columns once the timestamp column has been
converted to datetimes (`date_time` here). -/
def deriveCols (cols : List (String × List JVal)) (date_time : List (Option ℤ)) :
    List (String × List JVal) :=
  setCol (setCol (setCol (setCol (setCol (setCol (setCol (setCol cols
    "year" (date_time.map (optPart TimeParts.year)))
    "month" (date_time.map (optPart TimeParts.month)))
    "day" (date_time.map (optPart TimeParts.day)))
    "hour" (date_time.map (optPart TimeParts.hour)))
    "min" (date_time.map (optPart TimeParts.minute)))
    "sec" (date_time.map (optPart TimeParts.second)))
    "timestamp_fixed" (date_time.map timestampFixedCell))
    "timestamp_string" (date_time.map (timestampStringCell (date_time.any Option.isNone)))

/-- `MapMeClass._DeriveTimeIntervals`: convert the `timestampMs` column
with `pd.to_datetime(unit='ms')` (raising on the first bad cell, missing
column raising `KeyError`), then assign the derived calendar columns and
the display string column. -/
def _DeriveTimeIntervals (df : DataFrame) : Except PdError DataFrame :=
  match df.getCol "timestampMs" with
  | none => .error (.keyError "timestampMs")
  | some cells =>
    match mapCellsE toDatetimeCell cells with
    | .error e => .error e
    | .ok date_time => .ok ⟨deriveCols df.cols date_time⟩

/-- One cell of `col / 10000000`: numbers divide, NaN propagates, a
string operand raises `TypeError`. -/
def cellDivE7 : JVal → Except PdError JVal
  | .num q => .ok (.num (q / 10000000))
  | .null => .ok .null
  | .str _ => .error .typeError

/-- `MapMeClass._FixLatLong`: divide the two coordinate columns by
10,000,000 in place, one statement per column, left to right. -/
def _FixLatLong (df : DataFrame) : Except PdError DataFrame :=
  match df.getCol "latitudeE7" with
  | none => .error (.keyError "latitudeE7")
  | some lats =>
    match mapCellsE cellDivE7 lats with
    | .error e => .error e
    | .ok fixedLats =>
      match lookupKey (setCol df.cols "latitudeE7" fixedLats) "longitudeE7" with
      | none => .error (.keyError "longitudeE7")
      | some longs =>
        match mapCellsE cellDivE7 longs with
        | .error e => .error e
        | .ok fixedLongs =>
          .ok ⟨setCol (setCol df.cols "latitudeE7" fixedLats) "longitudeE7" fixedLongs⟩

/-- The `MapMeClass` instance state the claims concern: the current view
`self.data` and the construction-time snapshot `self._originaldata`.
(The write-only plot caches `self.fig`, `self.scatterdata` and
`self.layout` are not tracked; no claim reads them back.) -/
structure MapMeState where
  data : DataFrame
  originaldata : DataFrame
  deriving DecidableEq, Repr

/-- `MapMeClass.__init__`: read, derive times, fix coordinates, then
snapshot the transformed dataframe. -/
def init (input : Option ParsedJson) : Except PdError MapMeState :=
  match _ReadJson input with
  | .error e => .error e
  | .ok df0 =>
    match _DeriveTimeIntervals df0 with
    | .error e => .error e
    | .ok df1 =>
      match _FixLatLong df1 with
      | .error e => .error e
      | .ok df2 => .ok { data := df2, originaldata := df2 }

/-- Select the rows of each column where the mask is true. -/
def maskFilter (mask : List Bool) (cells : List JVal) : List JVal :=
  ((mask.zip cells).filter (fun p => p.1)).map (fun p => p.2)

/-- `df.loc[mask, :]` for a boolean mask: raises `IndexError` when the
mask length differs from the row count, otherwise a new frame of the
selected rows. -/
def locMask (df : DataFrame) (mask : List Bool) : Except PdError DataFrame :=
  if mask.length = df.nrows then
    .ok ⟨df.cols.map (fun c => (c.1, maskFilter mask c.2))⟩
  else .error .indexError

/-- `MapMeClass.Filter`: `self.data = self.data.loc[filter, :]`.  The
right-hand side is evaluated first, so when it raises the view is left
unchanged; the raised exception is returned alongside the state. -/
def Filter (s : MapMeState) (mask : List Bool) : MapMeState × Option PdError :=
  match locMask s.data mask with
  | .ok df => ({ s with data := df }, none)
  | .error e => (s, some e)

/-- `MapMeClass.ClearFilter`: restore the snapshot as the current view. -/
def ClearFilter (s : MapMeState) : MapMeState :=
  { s with data := s.originaldata }

/-- A finite sequence of `Filter` calls, each applied to the state the
previous one left (failed calls leave the state unchanged). -/
def runFilters (s : MapMeState) (masks : List (List Bool)) : MapMeState :=
  masks.foldl (fun st m => (Filter st m).1) s

/-- The point-layer description `MapMeClass._SetScatterData` builds. -/
structure ScatterData where
  lat : List JVal
  lon : List JVal
  text : List JVal
  deriving DecidableEq, Repr

/-- The map-center part of the layout `MapMeClass._SetLayout` builds (the
only layout field computed from the data). -/
structure MapCenter where
  lat : JVal
  lon : JVal
  deriving DecidableEq, Repr

/-- The figure `PlotMap` returns: the point layer and the data-dependent
layout content. -/
structure Figure where
  scatterdata : ScatterData
  center : MapCenter
  deriving DecidableEq, Repr

/-- `MapMeClass._SetScatterData`: read the coordinate columns and the
hover-text column from the current view. -/
def _SetScatterData (df : DataFrame) : Except PdError ScatterData :=
  match df.getCol "latitudeE7" with
  | none => .error (.keyError "latitudeE7")
  | some la =>
    match df.getCol "longitudeE7" with
    | none => .error (.keyError "longitudeE7")
    | some lo =>
      match df.getCol "timestamp_string" with
      | none => .error (.keyError "timestamp_string")
      | some tx => .ok ⟨la, lo, tx⟩

/-- `MapMeClass._SetLayout`: center the map on the record at position
`int(len(view)/2)` of the current view; positional indexing raises
`IndexError` when that position does not exist (empty view). -/
def _SetLayout (df : DataFrame) : Except PdError MapCenter :=
  match df.getCol "latitudeE7" with
  | none => .error (.keyError "latitudeE7")
  | some start_lats =>
    match df.getCol "longitudeE7" with
    | none => .error (.keyError "longitudeE7")
    | some start_longs =>
      match start_lats[start_lats.length / 2]?, start_longs[start_longs.length / 2]? with
      | some la, some lo => .ok ⟨la, lo⟩
      | _, _ => .error .indexError

/-- `MapMeClass.PlotMap`: build the scatter data, then the layout, then
the figure (the external `fig.show` render call is the out-of-scope
collaborator and has no data effect). -/
def PlotMap (s : MapMeState) : Except PdError Figure :=
  match _SetScatterData s.data with
  | .error e => .error e
  | .ok sc =>
    match _SetLayout s.data with
    | .error e => .error e
    | .ok c => .ok ⟨sc, c⟩

/-- A well-formed sample export: one record at the spec's example
coordinates and timestamp, with an extra field the loader must drop. -/
def sampleInput : Option ParsedJson :=
  some ⟨[("locations",
    [[("latitudeE7", JVal.num 377749000), ("longitudeE7", JVal.num (-1224194000)),
      ("timestampMs", JVal.num 1609459200000), ("accuracy", JVal.num 20)]])]⟩

/-- Extract the frame of a successful result (empty frame otherwise);
used to name concrete pipeline outputs in witness statements. -/
def okDf (e : Except PdError DataFrame) : DataFrame :=
  match e with
  | .ok df => df
  | .error _ => ⟨[]⟩

/-- Extract the state of a successful construction (empty state
otherwise); used to name concrete states in witness statements. -/
def okState (e : Except PdError MapMeState) : MapMeState :=
  match e with
  | .ok s => s
  | .error _ => ⟨⟨[]⟩, ⟨[]⟩⟩

/-- An input whose single record lacks the `timestampMs` field. -/
def missingFieldInput : Option ParsedJson :=
  some ⟨[("locations", [[("latitudeE7", JVal.num 100), ("longitudeE7", JVal.num 200)]])]⟩

/-- A frame whose timestamp column holds one valid record and one record
with a missing (null) timestamp. -/
def nullTsDf : DataFrame :=
  ⟨[("timestampMs", [JVal.num 1609459200000, JVal.null])]⟩

/-- A frame with a non-numeric timestamp cell. -/
def badTsDf : DataFrame :=
  ⟨[("timestampMs", [JVal.str "notanumber"])]⟩

/-- A one-record frame holding only the example timestamp. -/
def wTsDf : DataFrame :=
  ⟨[("timestampMs", [JVal.num 1609459200000])]⟩

/-- A five-record view (distinct coordinates per record). -/
def df5 : DataFrame :=
  ⟨[("latitudeE7", [JVal.num 1, JVal.num 2, JVal.num 3, JVal.num 4, JVal.num 5]),
    ("longitudeE7", [JVal.num 11, JVal.num 12, JVal.num 13, JVal.num 14, JVal.num 15])]⟩

/-- A four-record view (distinct coordinates per record). -/
def df4 : DataFrame :=
  ⟨[("latitudeE7", [JVal.num 1, JVal.num 2, JVal.num 3, JVal.num 4]),
    ("longitudeE7", [JVal.num 11, JVal.num 12, JVal.num 13, JVal.num 14])]⟩

/-! ### Association-list and column-assignment lemmas -/

theorem lookup_cons {α : Type} (p : String × α) (l : List (String × α)) (k : String) :
    lookupKey (p :: l) k = if p.1 = k then some p.2 else lookupKey l k := rfl

theorem lookup_map_set (cols : List (String × List JVal)) (k : String) (cells : List JVal)
    (v : List JVal) (h : lookupKey cols k = some v) :
    lookupKey (cols.map (fun c => if c.1 = k then (k, cells) else c)) k = some cells := by
  induction cols with
  | nil => simp [lookupKey] at h
  | cons p l ih =>
    by_cases hp : p.1 = k
    · simp [lookupKey, hp]
    · rw [lookup_cons, if_neg hp] at h
      simpa [lookupKey, hp] using ih h

theorem lookup_map_ne (cols : List (String × List JVal)) (k : String) (cells : List JVal)
    (k2 : String) (hne : k2 ≠ k) :
    lookupKey (cols.map (fun c => if c.1 = k then (k, cells) else c)) k2 = lookupKey cols k2 := by
  induction cols with
  | nil => rfl
  | cons p l ih =>
    by_cases hp : p.1 = k
    · have hk2 : ¬(k = k2) := fun hh => hne hh.symm
      have hp2 : ¬(p.1 = k2) := by rw [hp]; exact hk2
      simp [lookupKey, hp, hk2, hp2, ih]
    · simp only [List.map_cons, if_neg hp, lookup_cons]
      by_cases hp2 : p.1 = k2
      · simp [hp2]
      · simp [hp2, ih]

theorem lookup_append (l1 l2 : List (String × List JVal)) (k : String) :
    lookupKey (l1 ++ l2) k =
      match lookupKey l1 k with
      | some v => some v
      | none => lookupKey l2 k := by
  induction l1 with
  | nil => rfl
  | cons p l ih => by_cases hp : p.1 = k <;> simp [lookupKey, hp, ih]

theorem lookup_setCol_self (cols : List (String × List JVal)) (k : String)
    (cells : List JVal) :
    lookupKey (setCol cols k cells) k = some cells := by
  unfold setCol
  cases h : lookupKey cols k with
  | some v => exact lookup_map_set cols k cells v h
  | none =>
    rw [lookup_append, h]
    simp [lookupKey]

theorem lookup_setCol_ne (cols : List (String × List JVal)) (k : String) (cells : List JVal)
    (k2 : String) (hne : k2 ≠ k) :
    lookupKey (setCol cols k cells) k2 = lookupKey cols k2 := by
  unfold setCol
  cases h : lookupKey cols k with
  | some v => exact lookup_map_ne cols k cells k2 hne
  | none =>
    rw [lookup_append]
    cases h2 : lookupKey cols k2 with
    | some w => rfl
    | none =>
      simp only [lookupKey, h2]
      rw [if_neg (fun hh : k = k2 => hne hh.symm)]

/-! ### Element lemmas for fallible column operations -/

theorem mapCellsE_ok_getElem {β : Type} (f : JVal → Except PdError β) (xs : List JVal)
    (ys : List β) (h : mapCellsE f xs = .ok ys) (i : ℕ) (x : JVal)
    (hx : xs[i]? = some x) :
    ∃ y, ys[i]? = some y ∧ f x = .ok y := by
  induction xs generalizing ys i with
  | nil => simp at hx
  | cons c cs ih =>
    cases hf : f c with
    | error e => simp [mapCellsE, hf] at h
    | ok v =>
      cases hrest : mapCellsE f cs with
      | error e => simp [mapCellsE, hf, hrest] at h
      | ok vs =>
        simp only [mapCellsE, hf, hrest] at h
        injection h with h
        subst h
        cases i with
        | zero =>
          simp only [List.getElem?_cons_zero, Option.some.injEq] at hx
          subst hx
          exact ⟨v, by simp, hf⟩
        | succ n =>
          simp only [List.getElem?_cons_succ] at hx
          obtain ⟨y, hy1, hy2⟩ := ih vs hrest n hx
          exact ⟨y, by simpa using hy1, hy2⟩

theorem mapCellsE_mem_error {β : Type} (f : JVal → Except PdError β) (xs : List JVal)
    (x : JVal) (hx : x ∈ xs) (e : PdError) (hf : f x = .error e) :
    ∃ e2, mapCellsE f xs = .error e2 := by
  induction xs with
  | nil => cases hx
  | cons c cs ih =>
    cases hc : f c with
    | error e3 => exact ⟨e3, by simp [mapCellsE, hc]⟩
    | ok v =>
      have hxs : x ∈ cs := by
        cases hx with
        | head => rw [hc] at hf; cases hf
        | tail _ htl => exact htl
      obtain ⟨e2, h2⟩ := ih hxs
      exact ⟨e2, by simp [mapCellsE, hc, h2]⟩

/-! ### Lookup lemmas for the derived-column chain -/

theorem lookup_deriveCols_year (cols : List (String × List JVal)) (dts : List (Option ℤ)) :
    lookupKey (deriveCols cols dts) "year" = some (dts.map (optPart TimeParts.year)) := by
  unfold deriveCols
  rw [lookup_setCol_ne, lookup_setCol_ne, lookup_setCol_ne, lookup_setCol_ne,
    lookup_setCol_ne, lookup_setCol_ne, lookup_setCol_ne, lookup_setCol_self] <;> decide

theorem lookup_deriveCols_month (cols : List (String × List JVal)) (dts : List (Option ℤ)) :
    lookupKey (deriveCols cols dts) "month" = some (dts.map (optPart TimeParts.month)) := by
  unfold deriveCols
  rw [lookup_setCol_ne, lookup_setCol_ne, lookup_setCol_ne, lookup_setCol_ne,
    lookup_setCol_ne, lookup_setCol_ne, lookup_setCol_self] <;> decide

theorem lookup_deriveCols_day (cols : List (String × List JVal)) (dts : List (Option ℤ)) :
    lookupKey (deriveCols cols dts) "day" = some (dts.map (optPart TimeParts.day)) := by
  unfold deriveCols
  rw [lookup_setCol_ne, lookup_setCol_ne, lookup_setCol_ne, lookup_setCol_ne,
    lookup_setCol_ne, lookup_setCol_self] <;> decide

theorem lookup_deriveCols_hour (cols : List (String × List JVal)) (dts : List (Option ℤ)) :
    lookupKey (deriveCols cols dts) "hour" = some (dts.map (optPart TimeParts.hour)) := by
  unfold deriveCols
  rw [lookup_setCol_ne, lookup_setCol_ne, lookup_setCol_ne, lookup_setCol_ne,
    lookup_setCol_self] <;> decide

theorem lookup_deriveCols_min (cols : List (String × List JVal)) (dts : List (Option ℤ)) :
    lookupKey (deriveCols cols dts) "min" = some (dts.map (optPart TimeParts.minute)) := by
  unfold deriveCols
  rw [lookup_setCol_ne, lookup_setCol_ne, lookup_setCol_ne, lookup_setCol_self] <;> decide

theorem lookup_deriveCols_sec (cols : List (String × List JVal)) (dts : List (Option ℤ)) :
    lookupKey (deriveCols cols dts) "sec" = some (dts.map (optPart TimeParts.second)) := by
  unfold deriveCols
  rw [lookup_setCol_ne, lookup_setCol_ne, lookup_setCol_self] <;> decide

theorem lookup_deriveCols_string (cols : List (String × List JVal)) (dts : List (Option ℤ)) :
    lookupKey (deriveCols cols dts) "timestamp_string" =
      some (dts.map (timestampStringCell (dts.any Option.isNone))) := by
  unfold deriveCols
  rw [lookup_setCol_self]

theorem lookup_deriveCols_preserved (cols : List (String × List JVal))
    (dts : List (Option ℤ)) (k : String) (h1 : k ≠ "year") (h2 : k ≠ "month")
    (h3 : k ≠ "day") (h4 : k ≠ "hour") (h5 : k ≠ "min") (h6 : k ≠ "sec")
    (h7 : k ≠ "timestamp_fixed") (h8 : k ≠ "timestamp_string") :
    lookupKey (deriveCols cols dts) k = lookupKey cols k := by
  unfold deriveCols
  rw [lookup_setCol_ne _ _ _ _ h8, lookup_setCol_ne _ _ _ _ h7, lookup_setCol_ne _ _ _ _ h6,
    lookup_setCol_ne _ _ _ _ h5, lookup_setCol_ne _ _ _ _ h4, lookup_setCol_ne _ _ _ _ h3,
    lookup_setCol_ne _ _ _ _ h2, lookup_setCol_ne _ _ _ _ h1]

/-! ### Decompositions of the three pipeline stages -/

theorem derive_ok_parts (df df2 : DataFrame) (h : _DeriveTimeIntervals df = .ok df2) :
    ∃ cells dts, df.getCol "timestampMs" = some cells ∧
      mapCellsE toDatetimeCell cells = .ok dts ∧
      df2.getCol "year" = some (dts.map (optPart TimeParts.year)) ∧
      df2.getCol "month" = some (dts.map (optPart TimeParts.month)) ∧
      df2.getCol "day" = some (dts.map (optPart TimeParts.day)) ∧
      df2.getCol "hour" = some (dts.map (optPart TimeParts.hour)) ∧
      df2.getCol "min" = some (dts.map (optPart TimeParts.minute)) ∧
      df2.getCol "sec" = some (dts.map (optPart TimeParts.second)) ∧
      df2.getCol "timestamp_string" =
        some (dts.map (timestampStringCell (dts.any Option.isNone))) ∧
      ∀ k, k ≠ "year" → k ≠ "month" → k ≠ "day" → k ≠ "hour" → k ≠ "min" → k ≠ "sec" →
        k ≠ "timestamp_fixed" → k ≠ "timestamp_string" → df2.getCol k = df.getCol k := by
  unfold _DeriveTimeIntervals at h
  split at h
  · exact Except.noConfusion h
  · rename_i cells hc
    split at h
    · exact Except.noConfusion h
    · rename_i dts hm
      injection h with h
      subst h
      refine ⟨cells, dts, hc, hm, ?_, ?_, ?_, ?_, ?_, ?_, ?_, ?_⟩
      · exact lookup_deriveCols_year df.cols dts
      · exact lookup_deriveCols_month df.cols dts
      · exact lookup_deriveCols_day df.cols dts
      · exact lookup_deriveCols_hour df.cols dts
      · exact lookup_deriveCols_min df.cols dts
      · exact lookup_deriveCols_sec df.cols dts
      · exact lookup_deriveCols_string df.cols dts
      · intro k h1 h2 h3 h4 h5 h6 h7 h8
        exact lookup_deriveCols_preserved df.cols dts k h1 h2 h3 h4 h5 h6 h7 h8

theorem fix_ok_parts (df df2 : DataFrame) (h : _FixLatLong df = .ok df2) :
    ∃ lats flats longs flongs,
      df.getCol "latitudeE7" = some lats ∧ mapCellsE cellDivE7 lats = .ok flats ∧
      df.getCol "longitudeE7" = some longs ∧ mapCellsE cellDivE7 longs = .ok flongs ∧
      df2.getCol "latitudeE7" = some flats ∧ df2.getCol "longitudeE7" = some flongs ∧
      ∀ k, k ≠ "latitudeE7" → k ≠ "longitudeE7" → df2.getCol k = df.getCol k := by
  unfold _FixLatLong at h
  split at h
  · exact Except.noConfusion h
  · rename_i lats hla
    split at h
    · exact Except.noConfusion h
    · rename_i flats hml
      have hlong : lookupKey (setCol df.cols "latitudeE7" flats) "longitudeE7" =
          df.getCol "longitudeE7" :=
        lookup_setCol_ne _ _ _ _ (by decide)
      split at h
      · exact Except.noConfusion h
      · rename_i longs hlo0
        rw [hlong] at hlo0
        split at h
        · exact Except.noConfusion h
        · rename_i flongs hmlo
          injection h with h
          subst h
          refine ⟨lats, flats, longs, flongs, hla, hml, hlo0, hmlo, ?_, ?_, ?_⟩
          · show lookupKey (setCol (setCol df.cols "latitudeE7" flats)
              "longitudeE7" flongs) "latitudeE7" = some flats
            rw [lookup_setCol_ne _ _ _ _ (by decide), lookup_setCol_self]
          · exact lookup_setCol_self _ _ _
          · intro k h1 h2
            show lookupKey (setCol (setCol df.cols "latitudeE7" flats)
              "longitudeE7" flongs) k = df.getCol k
            rw [lookup_setCol_ne _ _ _ _ h2, lookup_setCol_ne _ _ _ _ h1]
            rfl

theorem init_ok_parts (input : Option ParsedJson) (s : MapMeState)
    (h : init input = .ok s) :
    ∃ df0 df1, _ReadJson input = .ok df0 ∧ _DeriveTimeIntervals df0 = .ok df1 ∧
      _FixLatLong df1 = .ok s.data ∧ s.originaldata = s.data := by
  unfold init at h
  split at h
  · exact Except.noConfusion h
  · rename_i df0 h0
    split at h
    · exact Except.noConfusion h
    · rename_i df1 h1
      split at h
      · exact Except.noConfusion h
      · rename_i df2 h2
        injection h with h
        subst h
        exact ⟨df0, df1, h0, h1, h2, rfl⟩

/-! ### Filter-state lemmas -/

theorem Filter_fst_originaldata (s : MapMeState) (m : List Bool) :
    ((Filter s m).1).originaldata = s.originaldata := by
  unfold Filter
  cases locMask s.data m <;> rfl

theorem runFilters_originaldata (s : MapMeState) (masks : List (List Bool)) :
    (runFilters s masks).originaldata = s.originaldata := by
  induction masks generalizing s with
  | nil => rfl
  | cons m ms ih =>
    show (runFilters ((Filter s m).1) ms).originaldata = s.originaldata
    rw [ih, Filter_fst_originaldata]

/-! ### Display-string helper lemmas -/

theorem mapCellsE_toDatetime_no_null (cells : List JVal) (dts : List (Option ℤ))
    (h : mapCellsE toDatetimeCell cells = .ok dts) (hnn : JVal.null ∉ cells) :
    dts.any Option.isNone = false := by
  induction cells generalizing dts with
  | nil =>
    simp only [mapCellsE] at h
    injection h with h
    subst h
    rfl
  | cons c cs ih =>
    cases hf : toDatetimeCell c with
    | error e => simp [mapCellsE, hf] at h
    | ok v =>
      cases hrest : mapCellsE toDatetimeCell cs with
      | error e => simp [mapCellsE, hf, hrest] at h
      | ok vs =>
        simp only [mapCellsE, hf, hrest] at h
        injection h with h
        subst h
        have hv : v.isNone = false := by
          cases c with
          | num q =>
            simp only [toDatetimeCell] at hf
            injection hf with hf
            subst hf
            rfl
          | null => exact absurd (List.mem_cons_self JVal.null cs) hnn
          | str s =>
            simp only [toDatetimeCell] at hf
            cases hp : parseIntStr s with
            | none => rw [hp] at hf; exact Except.noConfusion hf
            | some n =>
              rw [hp] at hf
              injection hf with hf
              subst hf
              rfl
        have hcs : JVal.null ∉ cs := fun hmm => hnn (List.mem_cons_of_mem c hmm)
        simp [List.any_cons, hv, ih vs hrest hcs]

/-! ### Loader-shape lemmas -/

theorem lookup_filterItems (df0 : DataFrame) (items : List String) (k : String)
    (cells : List JVal) (h : lookupKey (df0.filterItems items).cols k = some cells) :
    lookupKey df0.cols k = some cells := by
  unfold DataFrame.filterItems at h
  induction items with
  | nil => simp [lookupKey] at h
  | cons a l ih =>
    rw [List.filterMap_cons] at h
    cases ha : lookupKey df0.cols a with
    | none => rw [ha] at h; exact ih h
    | some cs =>
      rw [ha] at h
      simp only [Option.map_some'] at h
      rw [lookup_cons] at h
      by_cases hak : a = k
      · rw [if_pos (show (a, cs).1 = k from hak)] at h
        injection h with h
        subst h
        rw [← hak]
        exact ha
      · rw [if_neg (show ¬(a, cs).1 = k from hak)] at h
        exact ih h

theorem filterItems_keys_sub (df0 : DataFrame) (items : List String) :
    ∀ c ∈ (df0.filterItems items).cols, c.1 ∈ items := by
  unfold DataFrame.filterItems
  induction items with
  | nil => simp
  | cons a l ih =>
    intro c hc
    rw [List.filterMap_cons] at hc
    cases ha : lookupKey df0.cols a with
    | none =>
      rw [ha] at hc
      exact List.mem_cons_of_mem a (ih c hc)
    | some cs =>
      rw [ha] at hc
      simp only [Option.map_some'] at hc
      cases hc with
      | head => exact List.mem_cons_self a l
      | tail _ htl => exact List.mem_cons_of_mem a (ih c htl)

theorem lookup_map_keys {α : Type} (keys : List String) (g : String → α) (k : String)
    (v : α) (h : lookupKey (keys.map (fun k2 => (k2, g k2))) k = some v) : v = g k := by
  induction keys with
  | nil => simp [lookupKey] at h
  | cons a l ih =>
    rw [List.map_cons, lookup_cons] at h
    by_cases ha : a = k
    · rw [if_pos ha] at h
      injection h with h
      rw [← h, ha]
    · rw [if_neg ha] at h
      exact ih h

theorem lookup_fromDict (recs : List JObject) (k : String) (cells : List JVal)
    (h : lookupKey (fromDict recs).cols k = some cells) :
    cells = recs.map (fun r => recField r k) := by
  unfold fromDict at h
  exact lookup_map_keys (unionKeys recs) (fun k2 => recs.map (fun r => recField r k2)) k
    cells h

/-! ### Claims -/

/-- Claim C1: in every constructed dataset, each raw coordinate cell of
the loaded frame ends up in the constructed view as that value divided by
10,000,000 — divided once, by 10^7 (a double application would divide by
10^14 instead). -/
theorem coordinate_fix_divides_once (input : Option ParsedJson) (s : MapMeState)
    (hs : init input = .ok s) (df0 : DataFrame) (h0 : _ReadJson input = .ok df0) :
    (∀ (lats : List JVal) (i : ℕ) (q : ℚ),
      df0.getCol "latitudeE7" = some lats → lats[i]? = some (JVal.num q) →
      ∃ flats, s.data.getCol "latitudeE7" = some flats ∧
        flats[i]? = some (JVal.num (q / 10000000))) ∧
    (∀ (longs : List JVal) (i : ℕ) (q : ℚ),
      df0.getCol "longitudeE7" = some longs → longs[i]? = some (JVal.num q) →
      ∃ flongs, s.data.getCol "longitudeE7" = some flongs ∧
        flongs[i]? = some (JVal.num (q / 10000000))) := by
  obtain ⟨df0x, df1, hr, hd, hf, _⟩ := init_ok_parts input s hs
  rw [h0] at hr
  injection hr with hr
  subst hr
  obtain ⟨cells, dts, hc, hm, _, _, _, _, _, _, _, hpres⟩ := derive_ok_parts _ df1 hd
  obtain ⟨lats1, flats, longs1, flongs, hla1, hml, hlo1, hmlo, hgl, hglo, _⟩ :=
    fix_ok_parts df1 s.data hf
  constructor
  · intro lats i q hlats hq
    have heq : df1.getCol "latitudeE7" = some lats := by
      rw [hpres "latitudeE7" (by decide) (by decide) (by decide) (by decide) (by decide)
        (by decide) (by decide) (by decide), hlats]
    rw [heq] at hla1
    injection hla1 with hla1
    subst hla1
    obtain ⟨y, hy1, hy2⟩ := mapCellsE_ok_getElem cellDivE7 lats flats hml i (JVal.num q) hq
    simp only [cellDivE7] at hy2
    injection hy2 with hy2
    subst hy2
    exact ⟨flats, hgl, hy1⟩
  · intro longs i q hlongs hq
    have heq : df1.getCol "longitudeE7" = some longs := by
      rw [hpres "longitudeE7" (by decide) (by decide) (by decide) (by decide) (by decide)
        (by decide) (by decide) (by decide), hlongs]
    rw [heq] at hlo1
    injection hlo1 with hlo1
    subst hlo1
    obtain ⟨y, hy1, hy2⟩ := mapCellsE_ok_getElem cellDivE7 longs flongs hmlo i (JVal.num q) hq
    simp only [cellDivE7] at hy2
    injection hy2 with hy2
    subst hy2
    exact ⟨flongs, hglo, hy1⟩

/-- Witness for C1: on the sample export, latitudeE7 = 377749000 comes
out as latitude 37.7749 and longitudeE7 = -1224194000 as longitude
-122.4194. -/
theorem coordinate_fix_divides_once_witness :
    init sampleInput = .ok (okState (init sampleInput)) ∧
    (∃ flats, (okState (init sampleInput)).data.getCol "latitudeE7" = some flats ∧
      flats[0]? = some (JVal.num 37.7749)) ∧
    (∃ flongs, (okState (init sampleInput)).data.getCol "longitudeE7" = some flongs ∧
      flongs[0]? = some (JVal.num (-122.4194))) := by
  refine ⟨rfl, ?_, ?_⟩
  · obtain ⟨flats, h1, h2⟩ :=
      (coordinate_fix_divides_once sampleInput (okState (init sampleInput)) rfl
        (okDf (_ReadJson sampleInput)) rfl).1
        [JVal.num 377749000] 0 377749000 rfl rfl
    refine ⟨flats, h1, ?_⟩
    rw [h2]
    simp only [Option.some.injEq, JVal.num.injEq]
    norm_num
  · obtain ⟨flongs, h1, h2⟩ :=
      (coordinate_fix_divides_once sampleInput (okState (init sampleInput)) rfl
        (okDf (_ReadJson sampleInput)) rfl).2
        [JVal.num (-1224194000)] 0 (-1224194000) rfl rfl
    refine ⟨flongs, h1, ?_⟩
    rw [h2]
    simp only [Option.some.injEq, JVal.num.injEq]
    norm_num

/-- Claim C2 as amended: the time derivation reads `timestampMs` as UTC
epoch milliseconds and derives year/month/day/hour/minute/second; when no
record's timestamp is missing (so the derived columns stay int64), the
display string is the unpadded concatenation month/day/year hour:minute;
in particular 1609459200000 gives 2021-01-01 00:00:00 and the string
1/1/2021 0:0.  (With a missing timestamp anywhere in the column the
derived columns are upcast to float64 and every row's string fields gain
a trailing .0 — see the counterexample.) -/
theorem time_derivation_spec (df df2 : DataFrame) (h : _DeriveTimeIntervals df = .ok df2)
    (cells : List JVal) (hc : df.getCol "timestampMs" = some cells)
    (i : ℕ) (ms : ℤ) (hcell : cells[i]? = some (JVal.num (ms : ℚ))) :
    (∃ ys, df2.getCol "year" = some ys ∧
      ys[i]? = some (JVal.num ((partsFromMs ms).year : ℚ))) ∧
    (∃ mos, df2.getCol "month" = some mos ∧
      mos[i]? = some (JVal.num ((partsFromMs ms).month : ℚ))) ∧
    (∃ ds, df2.getCol "day" = some ds ∧
      ds[i]? = some (JVal.num ((partsFromMs ms).day : ℚ))) ∧
    (∃ hs, df2.getCol "hour" = some hs ∧
      hs[i]? = some (JVal.num ((partsFromMs ms).hour : ℚ))) ∧
    (∃ mis, df2.getCol "min" = some mis ∧
      mis[i]? = some (JVal.num ((partsFromMs ms).minute : ℚ))) ∧
    (∃ ses, df2.getCol "sec" = some ses ∧
      ses[i]? = some (JVal.num ((partsFromMs ms).second : ℚ))) ∧
    (JVal.null ∉ cells →
      ∃ ss, df2.getCol "timestamp_string" = some ss ∧
        ss[i]? = some (JVal.str
          (toString (partsFromMs ms).month ++ "/" ++ toString (partsFromMs ms).day ++ "/" ++
           toString (partsFromMs ms).year ++ " " ++ toString (partsFromMs ms).hour ++ ":" ++
           toString (partsFromMs ms).minute))) ∧
    partsFromMs 1609459200000 = ⟨2021, 1, 1, 0, 0, 0⟩ ∧
    timestampStringCell false (some 1609459200000) = JVal.str "1/1/2021 0:0" := by
  obtain ⟨cells1, dts, hc1, hm, hy, hmo, hd2, hh, hmi, hse, hst, _⟩ := derive_ok_parts df df2 h
  rw [hc] at hc1
  injection hc1 with hc1
  subst hc1
  obtain ⟨y, hy1, hy2⟩ :=
    mapCellsE_ok_getElem toDatetimeCell cells dts hm i (JVal.num (ms : ℚ)) hcell
  simp only [toDatetimeCell] at hy2
  rw [Int.floor_intCast] at hy2
  injection hy2 with hy2
  subst hy2
  refine ⟨⟨_, hy, ?_⟩, ⟨_, hmo, ?_⟩, ⟨_, hd2, ?_⟩, ⟨_, hh, ?_⟩, ⟨_, hmi, ?_⟩, ⟨_, hse, ?_⟩,
    ?_, by decide, by decide⟩
  · simp [List.getElem?_map, hy1, optPart]
  · simp [List.getElem?_map, hy1, optPart]
  · simp [List.getElem?_map, hy1, optPart]
  · simp [List.getElem?_map, hy1, optPart]
  · simp [List.getElem?_map, hy1, optPart]
  · simp [List.getElem?_map, hy1, optPart]
  · intro hnn
    have hflag := mapCellsE_toDatetime_no_null cells dts hm hnn
    rw [hflag] at hst
    refine ⟨_, hst, ?_⟩
    simp [List.getElem?_map, hy1, timestampStringCell, calendarCellStr]

/-- Witness for the amended C2 at timestampMs = 1609459200000 (a frame
with no missing timestamps). -/
theorem time_derivation_spec_witness :
    _DeriveTimeIntervals wTsDf = .ok (okDf (_DeriveTimeIntervals wTsDf)) ∧
    (∃ ss, (okDf (_DeriveTimeIntervals wTsDf)).getCol "timestamp_string" = some ss ∧
      ss[0]? = some (JVal.str "1/1/2021 0:0")) := by
  refine ⟨rfl, ?_⟩
  obtain ⟨_, _, _, _, _, _, hstr, _, _⟩ :=
    time_derivation_spec wTsDf (okDf (_DeriveTimeIntervals wTsDf)) rfl
      [JVal.num 1609459200000] rfl 0 1609459200000 (by decide)
  obtain ⟨ss, h1, h2⟩ := hstr (by decide)
  refine ⟨ss, h1, ?_⟩
  rw [h2]
  decide

/-- Counterexample to C2 as stated: on a frame where another record's
timestamp is missing, the NaT upcasts the derived columns to float64 and
the valid record's display string is rendered with trailing .0 on every
field — not the unpadded integer concatenation the claim requires. -/
theorem derive_timestamp_string_not_bare_on_mixed :
    (okDf (_DeriveTimeIntervals nullTsDf)).getCol "timestamp_string" =
      some [JVal.str "1.0/1.0/2021.0 0.0:0.0", JVal.str "nan/nan/nan nan:nan"] ∧
    JVal.str "1.0/1.0/2021.0 0.0:0.0" ≠ JVal.str "1/1/2021 0:0" :=
  ⟨rfl, by decide⟩

/-- Claim C3: after any finite sequence of `Filter` calls on a
constructed dataset, `ClearFilter` restores the current view to exactly
the original loaded-and-transformed record set. -/
theorem clear_filter_roundtrip (input : Option ParsedJson) (s : MapMeState)
    (hs : init input = .ok s) (masks : List (List Bool)) :
    (ClearFilter (runFilters s masks)).data = s.data := by
  show (runFilters s masks).originaldata = s.data
  rw [runFilters_originaldata]
  obtain ⟨_, _, _, _, _, horig⟩ := init_ok_parts input s hs
  exact horig

/-- Witness for C3: filter the sample dataset down (and once with a
mismatched mask), then clear; the view is the constructed one again. -/
theorem clear_filter_roundtrip_witness :
    init sampleInput = .ok (okState (init sampleInput)) ∧
    (ClearFilter (runFilters (okState (init sampleInput)) [[false], [true]])).data =
      (okState (init sampleInput)).data :=
  ⟨rfl, clear_filter_roundtrip sampleInput (okState (init sampleInput)) rfl [[false], [true]]⟩

/-- Claim C4: a boolean mask whose length differs from the current
view's row count makes `Filter` fail with `IndexError`, leaving the view
unchanged. -/
theorem filter_length_mismatch_atomic (s : MapMeState) (mask : List Bool)
    (h : mask.length ≠ s.data.nrows) :
    Filter s mask = (s, some PdError.indexError) := by
  unfold Filter locMask
  rw [if_neg h]

/-- Witness for C4: an empty mask against the one-row sample view. -/
theorem filter_length_mismatch_atomic_witness :
    ([] : List Bool).length ≠ (okState (init sampleInput)).data.nrows ∧
    Filter (okState (init sampleInput)) [] =
      (okState (init sampleInput), some PdError.indexError) :=
  ⟨by decide, filter_length_mismatch_atomic (okState (init sampleInput)) [] (by decide)⟩

/-- Claim C9: `ClearFilter` is idempotent — clearing twice leaves the
state exactly as clearing once. -/
theorem clear_filter_idempotent (s : MapMeState) :
    ClearFilter (ClearFilter s) = ClearFilter s := rfl

/-- Claim C7: for a non-empty current view, the map layout is centered
on the record at position `len / 2` (floor) of the view — the midpoint
record, not a geographic centroid. -/
theorem set_layout_midpoint_center (df : DataFrame) (lats longs : List JVal) (la lo : JVal)
    (hla : df.getCol "latitudeE7" = some lats)
    (hlo : df.getCol "longitudeE7" = some longs)
    (hga : lats[lats.length / 2]? = some la)
    (hgo : longs[longs.length / 2]? = some lo) :
    _SetLayout df = .ok ⟨la, lo⟩ := by
  simp [_SetLayout, hla, hlo, hga, hgo]

/-- Witness for C7: a five-record view centers on the record at index 2,
and a four-record view also centers on the record at index 2. -/
theorem set_layout_midpoint_center_witness :
    _SetLayout df5 = .ok ⟨JVal.num 3, JVal.num 13⟩ ∧
    _SetLayout df4 = .ok ⟨JVal.num 3, JVal.num 13⟩ :=
  ⟨set_layout_midpoint_center df5
      [JVal.num 1, JVal.num 2, JVal.num 3, JVal.num 4, JVal.num 5]
      [JVal.num 11, JVal.num 12, JVal.num 13, JVal.num 14, JVal.num 15]
      (JVal.num 3) (JVal.num 13) rfl rfl rfl rfl,
   set_layout_midpoint_center df4
      [JVal.num 1, JVal.num 2, JVal.num 3, JVal.num 4]
      [JVal.num 11, JVal.num 12, JVal.num 13, JVal.num 14]
      (JVal.num 3) (JVal.num 13) rfl rfl rfl rfl⟩

/-- Claim C10: with an empty current view (all records filtered out),
`PlotMap` fails with the out-of-bounds `IndexError` raised while
computing the map center, instead of producing a figure. -/
theorem plotmap_empty_view_fails (s : MapMeState)
    (hla : s.data.getCol "latitudeE7" = some [])
    (hlo : s.data.getCol "longitudeE7" = some [])
    (hts : s.data.getCol "timestamp_string" = some []) :
    PlotMap s = .error PdError.indexError := by
  simp [PlotMap, _SetScatterData, _SetLayout, hla, hlo, hts]

/-- Witness for C10: filter every record out of the sample dataset, then
plot. -/
theorem plotmap_empty_view_fails_witness :
    ((Filter (okState (init sampleInput)) [false]).1).data.getCol "latitudeE7" = some [] ∧
    PlotMap ((Filter (okState (init sampleInput)) [false]).1) = .error PdError.indexError :=
  ⟨rfl, plotmap_empty_view_fails ((Filter (okState (init sampleInput)) [false]).1)
    rfl rfl rfl⟩

/-- Counterexample to C5 as stated: a record set whose records lack the
`timestampMs` field loads without error — `df.filter(items=...)` drops
absent columns silently, so the loader succeeds and simply returns a
frame with no `timestampMs` column. -/
theorem readjson_missing_field_not_error :
    _ReadJson missingFieldInput =
      .ok ⟨[("latitudeE7", [JVal.num 100]), ("longitudeE7", [JVal.num 200])]⟩ ∧
    (okDf (_ReadJson missingFieldInput)).getCol "timestampMs" = none :=
  ⟨rfl, rfl⟩

/-- Claim C5 as amended: the loader fails exactly when the file cannot be
parsed or the top-level `locations` key is absent; absent per-record
fields never make the loader itself fail (their columns are silently
dropped, and the failure surfaces later, in the transform steps). -/
theorem readjson_error_iff_amended (input : Option ParsedJson) :
    (∃ e, _ReadJson input = .error e) ↔
      (input = none ∨ ∃ doc, input = some doc ∧ lookupKey doc.keys "locations" = none) := by
  cases input with
  | none => simp [_ReadJson]
  | some doc =>
    cases h : lookupKey doc.keys "locations" with
    | none => simp [_ReadJson, h]
    | some recs => simp [_ReadJson, h]

/-- Counterexample to C6 as stated: a record whose timestamp is missing
(null) does not fail the transform — `pd.to_datetime` maps it to NaT, the
derived cells of that record come out as NaN, the derived columns are
upcast to float64 (so the valid record's display string is rendered with
trailing .0), and a mixed dataset is produced. -/
theorem derive_missing_timestamp_not_error :
    _DeriveTimeIntervals nullTsDf = .ok ⟨[
      ("timestampMs", [JVal.num 1609459200000, JVal.null]),
      ("year", [JVal.num 2021, JVal.null]),
      ("month", [JVal.num 1, JVal.null]),
      ("day", [JVal.num 1, JVal.null]),
      ("hour", [JVal.num 0, JVal.null]),
      ("min", [JVal.num 0, JVal.null]),
      ("sec", [JVal.num 0, JVal.null]),
      ("timestamp_fixed", [JVal.num 1609459200000, JVal.null]),
      ("timestamp_string",
        [JVal.str "1.0/1.0/2021.0 0.0:0.0", JVal.str "nan/nan/nan nan:nan"])]⟩ :=
  rfl

/-- Claim C6 as amended: a record with a non-numeric timestamp makes the
whole transform fail (no partial output is produced); a missing
timestamp value, by contrast, silently yields NaT-derived cells. -/
theorem derive_nonnumeric_timestamp_fails (df : DataFrame) (cells : List JVal)
    (hc : df.getCol "timestampMs" = some cells) (s : String)
    (hmem : JVal.str s ∈ cells) (hbad : parseIntStr s = none) :
    ∃ e, _DeriveTimeIntervals df = .error e := by
  have hcellerr : toDatetimeCell (JVal.str s) = .error .valueError := by
    simp [toDatetimeCell, hbad]
  obtain ⟨e2, h2⟩ :=
    mapCellsE_mem_error toDatetimeCell cells (JVal.str s) hmem .valueError hcellerr
  exact ⟨e2, by simp [_DeriveTimeIntervals, hc, h2]⟩

/-- Witness for the amended C6: a frame with the non-numeric timestamp
cell fails to transform. -/
theorem derive_nonnumeric_timestamp_fails_witness :
    badTsDf.getCol "timestampMs" = some [JVal.str "notanumber"] ∧
    (parseIntStr "notanumber" = none) ∧
    (∃ e, _DeriveTimeIntervals badTsDf = .error e) :=
  ⟨rfl, rfl,
   derive_nonnumeric_timestamp_fails badTsDf [JVal.str "notanumber"] rfl "notanumber"
     (by simp) rfl⟩

/-- Claim C8: the loader keeps only the three raw fields — every column
of the loaded frame is one of latitudeE7/longitudeE7/timestampMs — and
any kept column holds exactly the records' values for that field, in
input order. -/
theorem readjson_keeps_only_three_fields (input : Option ParsedJson) (df : DataFrame)
    (h : _ReadJson input = .ok df) :
    ((df.cols.all fun c =>
        c.1 == "latitudeE7" || c.1 == "longitudeE7" || c.1 == "timestampMs") = true) ∧
    ∀ doc recs k cells, input = some doc → lookupKey doc.keys "locations" = some recs →
      df.getCol k = some cells → cells = recs.map fun r => recField r k := by
  unfold _ReadJson at h
  split at h
  · exact Except.noConfusion h
  · rename_i doc
    split at h
    · exact Except.noConfusion h
    · rename_i recs hrecs
      injection h with h
      subst h
      constructor
      · apply List.all_eq_true.2
        intro c hcmem
        have hmem := filterItems_keys_sub (fromDict recs)
          ["latitudeE7", "longitudeE7", "timestampMs"] c hcmem
        simp only [List.mem_cons, List.not_mem_nil, or_false] at hmem
        simp only [Bool.or_eq_true, beq_iff_eq]
        tauto
      · intro doc2 recs2 k cells hdoc2 hrecs2 hget
        injection hdoc2 with hdoc2
        subst hdoc2
        rw [hrecs] at hrecs2
        injection hrecs2 with hrecs2
        subst hrecs2
        exact lookup_fromDict recs k cells
          (lookup_filterItems (fromDict recs) ["latitudeE7", "longitudeE7", "timestampMs"]
            k cells hget)

/-- Witness for C8: the sample record's extra `accuracy` field is
dropped by the loader. -/
theorem readjson_keeps_only_three_fields_witness :
    (((okDf (_ReadJson sampleInput)).cols.all fun c =>
        c.1 == "latitudeE7" || c.1 == "longitudeE7" || c.1 == "timestampMs") = true) ∧
    (okDf (_ReadJson sampleInput)).getCol "accuracy" = none :=
  ⟨(readjson_keeps_only_three_fields sampleInput (okDf (_ReadJson sampleInput)) rfl).1, rfl⟩

end SpotGPS
